import Mathlib

/-!
Verification development for the TODO-Notes application.

The server-side HTTP handlers (Hono routes in the serverless function) are
embedded as pure Lean functions.  The external key-value store is an
association list from string keys to JSON-like values, and the external auth
provider is a function from bearer tokens to user ids.  Each handler returns
its HTTP-level result, the key-value store after the call, and the trace of
key-value-store operations it performed, in order.
-/

/-- A stored note object.  `none` marks a field that is not present on the
object (JS `undefined`), or, for `deadline`, JSON `null`; both are falsy. -/
structure StoredNote where
  id : Option String
  userId : Option String
  title : Option String
  text : Option String
  tags : Option (List String)
  deadline : Option String
  createdAt : Option String
deriving DecidableEq

/-- A JSON value as it may appear in the key-value store: `null`, or an
object with note-shaped fields. -/
inductive Value where
  | vnull : Value
  | vnote : StoredNote → Value
deriving DecidableEq

/-- Modelled from the spec: the external key-value store is a durable mapping
from string key to JSON value (its implementation, `kv_store.tsx`, is an
external dependency).  We embed it as an association list. -/
abbrev KV := List (String × Value)

/-- Modelled from the spec: `get` of the external key-value store. -/
def kvGet (kv : KV) (k : String) : Option Value :=
  match kv.find? (fun e => e.1 == k) with
  | some e => some e.2
  | none => none

/-- Modelled from the spec: `set` of the external key-value store; replaces
the value at an existing key, otherwise appends the new entry. -/
def kvSet (kv : KV) (k : String) (v : Value) : KV :=
  match kv with
  | [] => [(k, v)]
  | e :: rest => if e.1 == k then (k, v) :: rest else e :: kvSet rest k v

/-- Modelled from the spec: `delete` of the external key-value store. -/
def kvDel (kv : KV) (k : String) : KV :=
  kv.filter (fun e => !(e.1 == k))

/-- Boolean test that the first character list is a leading segment of the
second (used to embed the store's prefix-scan). -/
def strStarts : List Char → List Char → Bool
  | [], _ => true
  | _ :: _, [] => false
  | a :: as, b :: bs => a == b && strStarts as bs

/-- Modelled from the spec: prefix-scan of the external key-value store,
returning the values whose keys start with the given string. -/
def kvGetByPrefix (kv : KV) (p : String) : List Value :=
  (kv.filter (fun e => strStarts p.data e.1.data)).map (fun e => e.2)

/-- JS `String.prototype.split(' ')`: split at every space, keeping empty
segments, over the character list of the string. -/
def splitSpaces : List Char → List (List Char)
  | [] => [[]]
  | c :: cs =>
    if c = ' ' then [] :: splitSpaces cs
    else
      match splitSpaces cs with
      | [] => [[c]]
      | w :: ws => (c :: w) :: ws

/-- The token extraction every handler performs:
`c.req.header('Authorization')?.split(' ')[1]` followed by the handler's
falsy check `if (!accessToken)`.  Returns `none` exactly when the handler
answers 401 for a missing token. -/
def bearerToken (hdr : Option String) : Option String :=
  match hdr with
  | none => none
  | some h =>
    match (splitSpaces h.data)[1]? with
    | none => none
    | some t => if t = [] then none else some (String.mk t)

/-- The external auth provider (`supabase.auth.getUser`): maps an access
token to the authenticated user's id, or `none` on error / missing user. -/
abbrev Auth := String → Option String

/-- JS truthiness of an optional string field: `undefined`, `null` and the
empty string are falsy. -/
def truthyStr : Option String → Bool
  | some s => !(s == "")
  | none => false

/-- JS `v || d` for an optional string `v` and string default `d`. -/
def jsOrStr (v : Option String) (d : String) : String :=
  match v with
  | some s => if s = "" then d else s
  | none => d

/-- JS `v || null` for an optional string `v`. -/
def jsOrNull (v : Option String) : Option String :=
  match v with
  | some s => if s = "" then none else some s
  | none => none

/-- The GET /notes filter `note && typeof note === 'object' && note.id &&
note.title`: keeps objects whose `id` and `title` are truthy. -/
def isValidNote : Value → Bool
  | .vnull => false
  | .vnote n => truthyStr n.id && truthyStr n.title

/-- The per-user note namespace `user:<userId>:note:`. -/
def notesPre (uid : String) : String := "user:" ++ uid ++ ":note:"

/-- The storage key `user:<userId>:note:<noteId>` of one note. -/
def noteKey (uid noteId : String) : String := notesPre uid ++ noteId

/-- The storage key `user:<userId>:profile`. -/
def profileKey (uid : String) : String := "user:" ++ uid ++ ":profile"

/-- The request body `{ title, text, tags, deadline }` of the note
endpoints; `none` marks an absent field. -/
structure NoteReq where
  title : Option String
  text : Option String
  tags : Option (List String)
  deadline : Option String
deriving DecidableEq

/-- The note object built by POST /notes: fresh server id, authenticated
user id, `title || ''`, `text || ''`, `tags || []`, the raw deadline, and a
fresh `createdAt` stamp. -/
def mkStoredNote (uid freshId now : String) (req : NoteReq) : StoredNote :=
  { id := some freshId
    userId := some uid
    title := some (jsOrStr req.title "")
    text := some (jsOrStr req.text "")
    tags := some (req.tags.getD [])
    deadline := req.deadline
    createdAt := some now }

/-- The merged object built by PUT /notes/:id:
`{ ...existingNote, title, text, tags: tags || [], deadline: deadline || null }`. -/
def mergeNote (existing : StoredNote) (req : NoteReq) : StoredNote :=
  { existing with
    title := req.title
    text := req.text
    tags := some (req.tags.getD [])
    deadline := jsOrNull req.deadline }

/-- One key-value-store operation, as recorded in a handler's trace. -/
inductive KVOp where
  | get : String → KVOp
  | set : String → KVOp
  | del : String → KVOp
  | scan : String → KVOp
deriving DecidableEq

/-- The key (or scan string) an operation touches. -/
def KVOp.key : KVOp → String
  | .get k => k
  | .set k => k
  | .del k => k
  | .scan k => k

/-- The HTTP-level outcome of a handler. -/
inductive HandlerResult where
  | authErr : String → HandlerResult
  | validationErr : String → HandlerResult
  | notFoundErr : String → HandlerResult
  | okNotes : List Value → HandlerResult
  | okNote : StoredNote → HandlerResult
  | okMsg : String → HandlerResult
  | okProfile : Value → HandlerResult
deriving DecidableEq

/-- The HTTP status code of a result. -/
def HandlerResult.statusCode : HandlerResult → Nat
  | .authErr _ => 401
  | .validationErr _ => 400
  | .notFoundErr _ => 404
  | _ => 200

/-- Whether a result is an AuthError response. -/
def HandlerResult.isAuthErr : HandlerResult → Bool
  | .authErr _ => true
  | _ => false

/-- The note list carried by an `okNotes` result (empty otherwise). -/
def notesOf : HandlerResult → List Value
  | .okNotes ns => ns
  | _ => []

/-- A handler's result, the store after the call, and the ordered trace of
store operations it performed. -/
structure HandlerOutput where
  result : HandlerResult
  kv : KV
  trace : List KVOp
deriving DecidableEq

/-- GET /notes: authorize, prefix-scan the caller's note namespace, drop
invalid entries, return the rest. -/
def getNotesHandler (auth : Auth) (kv : KV) (hdr : Option String) : HandlerOutput :=
  match bearerToken hdr with
  | none => ⟨.authErr "Unauthorized: No token provided", kv, []⟩
  | some tok =>
    match auth tok with
    | none => ⟨.authErr "Unauthorized", kv, []⟩
    | some uid =>
      let notesData := kvGetByPrefix kv (notesPre uid)
      let notes := notesData.filter isValidNote
      ⟨.okNotes notes, kv, [.scan (notesPre uid)]⟩

/-- POST /notes: authorize, reject a falsy title or deadline, then build the
note with a server-generated id and timestamp, persist it under the caller's
namespace, and read it back (the handler's verification read). -/
def createNoteHandler (auth : Auth) (freshId now : String) (kv : KV)
    (hdr : Option String) (req : NoteReq) : HandlerOutput :=
  match bearerToken hdr with
  | none => ⟨.authErr "Unauthorized: No token provided", kv, []⟩
  | some tok =>
    match auth tok with
    | none => ⟨.authErr "Unauthorized", kv, []⟩
    | some uid =>
      if !truthyStr req.title then ⟨.validationErr "Title is required", kv, []⟩
      else if !truthyStr req.deadline then ⟨.validationErr "Deadline is required", kv, []⟩
      else
        let note := mkStoredNote uid freshId now req
        ⟨.okNote note, kvSet kv (noteKey uid freshId) (.vnote note),
          [.set (noteKey uid freshId), .get (noteKey uid freshId)]⟩

/-- PUT /notes/:id: authorize, fetch the caller's note at the id (404 when
absent or falsy), overwrite title/text/tags/deadline with the request's
values, persist, and return the merged note. -/
def updateNoteHandler (auth : Auth) (kv : KV) (hdr : Option String)
    (noteId : String) (req : NoteReq) : HandlerOutput :=
  match bearerToken hdr with
  | none => ⟨.authErr "Unauthorized: No token provided", kv, []⟩
  | some tok =>
    match auth tok with
    | none => ⟨.authErr "Unauthorized", kv, []⟩
    | some uid =>
      match kvGet kv (noteKey uid noteId) with
      | some (.vnote existing) =>
        let updatedNote := mergeNote existing req
        ⟨.okNote updatedNote, kvSet kv (noteKey uid noteId) (.vnote updatedNote),
          [.get (noteKey uid noteId), .set (noteKey uid noteId)]⟩
      | _ => ⟨.notFoundErr "Note not found", kv, [.get (noteKey uid noteId)]⟩

/-- DELETE /notes/:id: authorize, fetch the caller's note at the id (404
when absent or falsy), delete it, and confirm. -/
def deleteNoteHandler (auth : Auth) (kv : KV) (hdr : Option String)
    (noteId : String) : HandlerOutput :=
  match bearerToken hdr with
  | none => ⟨.authErr "Unauthorized: No token provided", kv, []⟩
  | some tok =>
    match auth tok with
    | none => ⟨.authErr "Unauthorized", kv, []⟩
    | some uid =>
      match kvGet kv (noteKey uid noteId) with
      | some (.vnote _) =>
        ⟨.okMsg "Note deleted successfully", kvDel kv (noteKey uid noteId),
          [.get (noteKey uid noteId), .del (noteKey uid noteId)]⟩
      | _ => ⟨.notFoundErr "Note not found", kv, [.get (noteKey uid noteId)]⟩

/-- GET /profile: authorize, fetch the caller's profile record (404 when
absent or falsy), and return it. -/
def getProfileHandler (auth : Auth) (kv : KV) (hdr : Option String) : HandlerOutput :=
  match bearerToken hdr with
  | none => ⟨.authErr "Unauthorized: No token provided", kv, []⟩
  | some tok =>
    match auth tok with
    | none => ⟨.authErr "Unauthorized", kv, []⟩
    | some uid =>
      match kvGet kv (profileKey uid) with
      | some (.vnote p) => ⟨.okProfile (.vnote p), kv, [.get (profileKey uid)]⟩
      | _ => ⟨.notFoundErr "Profile not found", kv, [.get (profileKey uid)]⟩

/-- POST /profile/password: authorize, reject `!newPassword ||
newPassword.length < 6`, then delegate to the auth provider's admin update
(whose possible error message is the `adminErr` parameter).  The handler
never touches the key-value store. -/
def updatePasswordHandler (auth : Auth) (adminErr : Option String) (kv : KV)
    (hdr : Option String) (newPassword : Option String) : HandlerOutput :=
  match bearerToken hdr with
  | none => ⟨.authErr "Unauthorized: No token provided", kv, []⟩
  | some tok =>
    match auth tok with
    | none => ⟨.authErr "Unauthorized", kv, []⟩
    | some _uid =>
      if !truthyStr newPassword || (newPassword.getD "").length < 6 then
        ⟨.validationErr "Password must be at least 6 characters", kv, []⟩
      else
        match adminErr with
        | some msg => ⟨.validationErr msg, kv, []⟩
        | none => ⟨.okMsg "Password updated successfully", kv, []⟩

/-- Outcome of the client's register submit: either an inline error with no
HTTP request sent, or the flow reached the `signUp` HTTP call. -/
inductive RegisterOutcome where
  | clientError : String → RegisterOutcome
  | submitted : RegisterOutcome
deriving DecidableEq

/-- `LoginRegister.handleSubmit`, register branch: validates fields,
password confirmation and password length, in the source's order, before
any HTTP request is made. -/
def handleRegisterSubmit (email password confirmPassword username : String) :
    RegisterOutcome :=
  if email.trim = "" || password.trim = "" || username.trim = "" then
    .clientError "Please fill in all fields"
  else if password ≠ confirmPassword then
    .clientError "Passwords do not match"
  else if password.length < 6 then
    .clientError "Password must be at least 6 characters"
  else
    .submitted

/-- Whether a stored value is a note object carrying the given id. -/
def hasId (v : Value) (i : String) : Bool :=
  match v with
  | .vnull => false
  | .vnote n => n.id == some i

/-- Whether an operation's key lies inside the given user's note
namespace. -/
def scopedToUser (uid : String) (op : KVOp) : Bool :=
  strStarts (notesPre uid).data op.key.data

/-! ### Concrete fixtures used to exercise the theorems -/

/-- Fixture: an auth provider resolving two tokens to two users. -/
def authW : Auth := fun t =>
  if t = "t1" then some "u1" else if t = "t2" then some "u2" else none

/-- Fixture: a well-formed create/update request body. -/
def reqW : NoteReq :=
  { title := some "Pay rent", text := some "", tags := some ["bills"],
    deadline := some "2025-01-01T23:59:59.999Z" }

/-- Fixture: a second well-formed request body. -/
def reqW2 : NoteReq :=
  { title := some "Water plants", text := some "balcony", tags := some [],
    deadline := some "2025-02-01T10:00:00.000Z" }

/-- Fixture: a request body whose title is present but the empty string. -/
def reqEmptyTitleW : NoteReq :=
  { title := some "", text := some "x", tags := some [],
    deadline := some "2025-01-01T23:59:59.999Z" }

/-- Fixture: an update request body that omits title, text and deadline. -/
def reqNoTitleW : NoteReq :=
  { title := none, text := none, tags := some ["t"], deadline := none }

/-- Fixture: a note entry whose id is present but the empty string. -/
def badNoteW : StoredNote :=
  { id := some "", userId := some "u1", title := some "T", text := some "",
    tags := some [], deadline := some "2025-01-01", createdAt := some "c0" }

/-- Fixture: a store holding the empty-id entry under user u1's namespace. -/
def kvBadW : KV := [("user:u1:note:n1", .vnote badNoteW)]

/-- Fixture: an ordinary stored note of user u1. -/
def noteW : StoredNote :=
  { id := some "n1", userId := some "u1", title := some "Old title",
    text := some "old", tags := some ["a"], deadline := some "2024-12-31",
    createdAt := some "c1" }

/-- Fixture: a store holding `noteW` under user u1's namespace. -/
def kvW : KV := [("user:u1:note:n1", .vnote noteW)]

/-! ### Helper lemmas -/

theorem aux_strStarts_append (p r : List Char) : strStarts p (p ++ r) = true := by
  induction p with
  | nil => rfl
  | cons a as ih => simp [strStarts, ih]

theorem aux_strStarts_rfl (l : List Char) : strStarts l l = true := by
  simpa using aux_strStarts_append l []

theorem aux_strStarts_strip (w x y : List Char) :
    strStarts (w ++ x) (w ++ y) = strStarts x y := by
  induction w with
  | nil => rfl
  | cons a as ih => simp [strStarts, ih]

theorem aux_strStarts_colon (u : List Char) : ∀ {v s t : List Char},
    ':' ∉ u → ':' ∉ v → strStarts (u ++ ':' :: s) (v ++ ':' :: t) = true → u = v := by
  induction u with
  | nil =>
    intro v s t _ hv h
    cases v with
    | nil => rfl
    | cons b v' =>
      exfalso
      simp [strStarts] at h
      exact hv (by simp [← h.1])
  | cons a u' ih =>
    intro v s t hu hv h
    cases v with
    | nil =>
      exfalso
      simp [strStarts] at h
      exact hu (by simp [h.1])
    | cons b v' =>
      simp [strStarts] at h
      obtain ⟨hab, hrest⟩ := h
      have hu' : ':' ∉ u' := fun hm => hu (List.mem_cons_of_mem a hm)
      have hv' : ':' ∉ v' := fun hm => hv (List.mem_cons_of_mem b hm)
      rw [hab, ih hu' hv' hrest]

theorem aux_colon_note : (":note:" : String).data = ':' :: ("note:" : String).data := rfl

theorem aux_notesPre_data (u : String) :
    (notesPre u).data = "user:".data ++ (u.data ++ ':' :: "note:".data) := by
  simp [notesPre, String.data_append, aux_colon_note, List.append_assoc]

theorem aux_noteKey_data (u nid : String) :
    (noteKey u nid).data =
      "user:".data ++ (u.data ++ ':' :: ("note:".data ++ nid.data)) := by
  simp [noteKey, notesPre, String.data_append, aux_colon_note, List.append_assoc]

theorem aux_starts_key (u x : String) :
    strStarts (notesPre u).data (noteKey u x).data = true := by
  rw [noteKey, String.data_append]
  exact aux_strStarts_append _ _

theorem aux_starts_cross (u v nid : String) (hu : ':' ∉ u.data) (hv : ':' ∉ v.data)
    (hne : u ≠ v) : strStarts (notesPre u).data (noteKey v nid).data = false := by
  by_contra hcon
  have htrue := Bool.ne_false_iff.mp hcon
  rw [aux_notesPre_data, aux_noteKey_data, aux_strStarts_strip] at htrue
  exact hne (String.ext (aux_strStarts_colon u.data hu hv htrue))

theorem aux_noteKey_ne (u v a b : String) (hu : ':' ∉ u.data) (hv : ':' ∉ v.data)
    (hne : u ≠ v) : noteKey u a ≠ noteKey v b := by
  intro heq
  have h1 : strStarts (notesPre u).data (noteKey u a).data = true := aux_starts_key u a
  rw [heq, aux_starts_cross u v b hu hv hne] at h1
  exact Bool.false_ne_true h1

theorem aux_kvGet_cons_ne (a : String × Value) (kv : KV) (k : String)
    (h : (a.1 == k) = false) : kvGet (a :: kv) k = kvGet kv k := by
  simp [kvGet, List.find?_cons, h]

theorem aux_kvGet_set (kv : KV) (k : String) (v : Value) :
    kvGet (kvSet kv k v) k = some v := by
  induction kv with
  | nil => simp [kvSet, kvGet]
  | cons a rest ih =>
    by_cases hak : (a.1 == k) = true
    · simp [kvSet, hak, kvGet, List.find?_cons]
    · have hf : (a.1 == k) = false := Bool.eq_false_iff.mpr hak
      simp only [kvSet, hf, Bool.false_eq_true, if_false]
      rw [aux_kvGet_cons_ne a _ k hf]
      exact ih

theorem aux_kvGet_del (kv : KV) (k : String) :
    kvGet (kvDel kv k) k = none := by
  induction kv with
  | nil => rfl
  | cons a rest ih =>
    by_cases hak : (a.1 == k) = true
    · simp [kvDel, List.filter_cons, hak] at *
      exact ih
    · have hf : (a.1 == k) = false := Bool.eq_false_iff.mpr hak
      simp only [kvDel, List.filter_cons, hf, Bool.not_false, if_true]
      rw [show List.filter (fun e => !(e.1 == k)) rest = kvDel rest k from rfl] at *
      rw [aux_kvGet_cons_ne a _ k hf]
      exact ih

/-! ### Claim theorems -/

/-- C2: for every protected endpoint (profile get, password change, notes
list/create/update/delete) and every request whose bearer token is missing
or does not resolve to a user, the handler returns AuthError (401) and
performs no key-value-store read or write before doing so (its trace of
store operations is empty and the store is unchanged). -/
theorem c2_auth_before_storage (auth : Auth) (kv : KV) (hdr : Option String)
    (adminErr : Option String) (noteId freshId now : String) (req : NoteReq)
    (pw : Option String)
    (h : bearerToken hdr = none ∨ ∃ t, bearerToken hdr = some t ∧ auth t = none) :
    ((getProfileHandler auth kv hdr).result.isAuthErr = true ∧
      (getProfileHandler auth kv hdr).result.statusCode = 401 ∧
      (getProfileHandler auth kv hdr).trace = [] ∧
      (getProfileHandler auth kv hdr).kv = kv) ∧
    ((updatePasswordHandler auth adminErr kv hdr pw).result.isAuthErr = true ∧
      (updatePasswordHandler auth adminErr kv hdr pw).result.statusCode = 401 ∧
      (updatePasswordHandler auth adminErr kv hdr pw).trace = [] ∧
      (updatePasswordHandler auth adminErr kv hdr pw).kv = kv) ∧
    ((getNotesHandler auth kv hdr).result.isAuthErr = true ∧
      (getNotesHandler auth kv hdr).result.statusCode = 401 ∧
      (getNotesHandler auth kv hdr).trace = [] ∧
      (getNotesHandler auth kv hdr).kv = kv) ∧
    ((createNoteHandler auth freshId now kv hdr req).result.isAuthErr = true ∧
      (createNoteHandler auth freshId now kv hdr req).result.statusCode = 401 ∧
      (createNoteHandler auth freshId now kv hdr req).trace = [] ∧
      (createNoteHandler auth freshId now kv hdr req).kv = kv) ∧
    ((updateNoteHandler auth kv hdr noteId req).result.isAuthErr = true ∧
      (updateNoteHandler auth kv hdr noteId req).result.statusCode = 401 ∧
      (updateNoteHandler auth kv hdr noteId req).trace = [] ∧
      (updateNoteHandler auth kv hdr noteId req).kv = kv) ∧
    ((deleteNoteHandler auth kv hdr noteId).result.isAuthErr = true ∧
      (deleteNoteHandler auth kv hdr noteId).result.statusCode = 401 ∧
      (deleteNoteHandler auth kv hdr noteId).trace = [] ∧
      (deleteNoteHandler auth kv hdr noteId).kv = kv) := by
  rcases h with h | ⟨t, ht, ha⟩
  · simp [getProfileHandler, updatePasswordHandler, getNotesHandler,
      createNoteHandler, updateNoteHandler, deleteNoteHandler, h,
      HandlerResult.isAuthErr, HandlerResult.statusCode]
  · simp [getProfileHandler, updatePasswordHandler, getNotesHandler,
      createNoteHandler, updateNoteHandler, deleteNoteHandler, ht, ha,
      HandlerResult.isAuthErr, HandlerResult.statusCode]

/-- C2 witness: a token the auth provider does not know is answered 401 by
GET /profile with an empty store trace. -/
theorem c2_auth_before_storage_witness :
    (getProfileHandler authW [] (some "Bearer zz")).result.isAuthErr = true ∧
    (getProfileHandler authW [] (some "Bearer zz")).trace = [] :=
  ⟨(c2_auth_before_storage authW [] (some "Bearer zz") none "n1" "f1" "now" reqW none
      (Or.inr ⟨"zz", rfl, rfl⟩)).1.1,
   (c2_auth_before_storage authW [] (some "Bearer zz") none "n1" "f1" "now" reqW none
      (Or.inr ⟨"zz", rfl, rfl⟩)).1.2.2.1⟩

/-- C9: the server rejects any authenticated password change whose new
password is shorter than 6 characters with ValidationError (400) and no
store access, and the client's register flow never reaches the signup HTTP
request when the chosen password is shorter than 6 characters. -/
theorem c9_password_validation (auth : Auth) (adminErr : Option String) (kv : KV)
    (hdr : Option String) (tok uid p : String)
    (hb : bearerToken hdr = some tok) (ha : auth tok = some uid)
    (hp : p.length < 6)
    (em pw cf un : String) (hpw : pw.length < 6) :
    (updatePasswordHandler auth adminErr kv hdr (some p)).result =
      .validationErr "Password must be at least 6 characters" ∧
    (updatePasswordHandler auth adminErr kv hdr (some p)).result.statusCode = 400 ∧
    (updatePasswordHandler auth adminErr kv hdr (some p)).trace = [] ∧
    (updatePasswordHandler auth adminErr kv hdr (some p)).kv = kv ∧
    handleRegisterSubmit em pw cf un ≠ .submitted := by
  refine ⟨?_, ?_, ?_, ?_, ?_⟩
  · simp [updatePasswordHandler, hb, ha, hp]
  · simp [updatePasswordHandler, hb, ha, hp, HandlerResult.statusCode]
  · simp [updatePasswordHandler, hb, ha, hp]
  · simp [updatePasswordHandler, hb, ha, hp]
  · unfold handleRegisterSubmit
    split_ifs <;> simp_all

/-- C9 witness: a 5-character password is rejected server-side and blocks
the client's register submit. -/
theorem c9_password_validation_witness :
    (updatePasswordHandler authW none kvW (some "Bearer t1") (some "abcde")).result =
      .validationErr "Password must be at least 6 characters" ∧
    handleRegisterSubmit "a@b.c" "abcde" "abcde" "ann" ≠ .submitted :=
  ⟨(c9_password_validation authW none kvW (some "Bearer t1") "t1" "u1" "abcde" rfl rfl
      (by decide) "a@b.c" "abcde" "abcde" "ann" (by decide)).1,
   (c9_password_validation authW none kvW (some "Bearer t1") "t1" "u1" "abcde" rfl rfl
      (by decide) "a@b.c" "abcde" "abcde" "ann" (by decide)).2.2.2.2⟩

/-- C3: for an authenticated user, PUT /notes/:id answers NotFoundError
(404) and leaves the store unchanged when no note exists at that id under
the user's namespace; when a note exists there it overwrites
title/text/tags/deadline with the request's values while id, userId and
createdAt stay unchanged, persists the merged record, and returns it. -/
theorem c3_update_semantics (auth : Auth) (kv : KV) (hdr : Option String)
    (tok uid noteId : String) (req : NoteReq)
    (hb : bearerToken hdr = some tok) (ha : auth tok = some uid) :
    ((kvGet kv (noteKey uid noteId) = none ∨
        kvGet kv (noteKey uid noteId) = some .vnull) →
      (updateNoteHandler auth kv hdr noteId req).result = .notFoundErr "Note not found" ∧
      (updateNoteHandler auth kv hdr noteId req).result.statusCode = 404 ∧
      (updateNoteHandler auth kv hdr noteId req).kv = kv) ∧
    (∀ n, kvGet kv (noteKey uid noteId) = some (.vnote n) →
      (updateNoteHandler auth kv hdr noteId req).result = .okNote (mergeNote n req) ∧
      (updateNoteHandler auth kv hdr noteId req).result.statusCode = 200 ∧
      (mergeNote n req).id = n.id ∧
      (mergeNote n req).userId = n.userId ∧
      (mergeNote n req).createdAt = n.createdAt ∧
      (mergeNote n req).title = req.title ∧
      (mergeNote n req).text = req.text ∧
      (mergeNote n req).tags = some (req.tags.getD []) ∧
      (mergeNote n req).deadline = jsOrNull req.deadline ∧
      (updateNoteHandler auth kv hdr noteId req).kv =
        kvSet kv (noteKey uid noteId) (.vnote (mergeNote n req)) ∧
      kvGet (updateNoteHandler auth kv hdr noteId req).kv (noteKey uid noteId) =
        some (.vnote (mergeNote n req))) := by
  constructor
  · rintro (h | h) <;>
      simp [updateNoteHandler, hb, ha, h, HandlerResult.statusCode]
  · intro n h
    simp [updateNoteHandler, hb, ha, h, HandlerResult.statusCode, mergeNote,
      aux_kvGet_set]

/-- C3 witness: updating the stored fixture note keeps id, userId and
createdAt and persists the merged record; updating a missing id is 404. -/
theorem c3_update_semantics_witness :
    ((updateNoteHandler authW kvW (some "Bearer t1") "nope" reqW).result =
        .notFoundErr "Note not found" ∧
      (updateNoteHandler authW kvW (some "Bearer t1") "nope" reqW).result.statusCode = 404 ∧
      (updateNoteHandler authW kvW (some "Bearer t1") "nope" reqW).kv = kvW) ∧
    ((updateNoteHandler authW kvW (some "Bearer t1") "n1" reqW).result =
        .okNote (mergeNote noteW reqW) ∧
      (mergeNote noteW reqW).createdAt = noteW.createdAt) :=
  ⟨(c3_update_semantics authW kvW (some "Bearer t1") "t1" "u1" "nope" reqW rfl rfl).1
      (Or.inl (by decide)),
   ⟨((c3_update_semantics authW kvW (some "Bearer t1") "t1" "u1" "n1" reqW rfl rfl).2
        noteW (by decide)).1,
    ((c3_update_semantics authW kvW (some "Bearer t1") "t1" "u1" "n1" reqW rfl rfl).2
        noteW (by decide)).2.2.2.2.1⟩⟩

/-- C6: for an authenticated user, DELETE /notes/:id answers NotFoundError
(404) and leaves the store unchanged when no note exists at that id under
the user's namespace; when a note exists it removes the record and
confirms, and a second delete of the same id then answers NotFoundError,
not success. -/
theorem c6_delete_semantics (auth : Auth) (kv : KV) (hdr : Option String)
    (tok uid noteId : String)
    (hb : bearerToken hdr = some tok) (ha : auth tok = some uid) :
    ((kvGet kv (noteKey uid noteId) = none ∨
        kvGet kv (noteKey uid noteId) = some .vnull) →
      (deleteNoteHandler auth kv hdr noteId).result = .notFoundErr "Note not found" ∧
      (deleteNoteHandler auth kv hdr noteId).result.statusCode = 404 ∧
      (deleteNoteHandler auth kv hdr noteId).kv = kv) ∧
    (∀ n, kvGet kv (noteKey uid noteId) = some (.vnote n) →
      (deleteNoteHandler auth kv hdr noteId).result = .okMsg "Note deleted successfully" ∧
      (deleteNoteHandler auth kv hdr noteId).result.statusCode = 200 ∧
      (deleteNoteHandler auth kv hdr noteId).kv = kvDel kv (noteKey uid noteId) ∧
      kvGet (deleteNoteHandler auth kv hdr noteId).kv (noteKey uid noteId) = none ∧
      (deleteNoteHandler auth (deleteNoteHandler auth kv hdr noteId).kv hdr noteId).result =
        .notFoundErr "Note not found" ∧
      (deleteNoteHandler auth (deleteNoteHandler auth kv hdr noteId).kv hdr noteId).result.statusCode
        = 404) := by
  constructor
  · rintro (h | h) <;>
      simp [deleteNoteHandler, hb, ha, h, HandlerResult.statusCode]
  · intro n h
    have hkv : (deleteNoteHandler auth kv hdr noteId).kv = kvDel kv (noteKey uid noteId) := by
      simp [deleteNoteHandler, hb, ha, h]
    have hget : kvGet (deleteNoteHandler auth kv hdr noteId).kv (noteKey uid noteId) = none := by
      rw [hkv]; exact aux_kvGet_del kv (noteKey uid noteId)
    refine ⟨?_, ?_, hkv, hget, ?_, ?_⟩
    · simp [deleteNoteHandler, hb, ha, h]
    · simp [deleteNoteHandler, hb, ha, h, HandlerResult.statusCode]
    · generalize hg : (deleteNoteHandler auth kv hdr noteId).kv = kv2 at hget
      simp [deleteNoteHandler, hb, ha, hget]
    · generalize hg : (deleteNoteHandler auth kv hdr noteId).kv = kv2 at hget
      simp [deleteNoteHandler, hb, ha, hget, HandlerResult.statusCode]

/-- C6 witness: deleting the stored fixture note succeeds and deleting the
same id again answers NotFoundError. -/
theorem c6_delete_semantics_witness :
    (deleteNoteHandler authW kvW (some "Bearer t1") "n1").result =
      .okMsg "Note deleted successfully" ∧
    (deleteNoteHandler authW (deleteNoteHandler authW kvW (some "Bearer t1") "n1").kv
        (some "Bearer t1") "n1").result = .notFoundErr "Note not found" :=
  ⟨((c6_delete_semantics authW kvW (some "Bearer t1") "t1" "u1" "n1" rfl rfl).2
      noteW (by decide)).1,
   ((c6_delete_semantics authW kvW (some "Bearer t1") "t1" "u1" "n1" rfl rfl).2
      noteW (by decide)).2.2.2.2.1⟩

/-- C7: when an existing note is updated and the request's deadline is not
supplied (or is falsy), the stored and returned note has deadline null
(`none`), not the previously stored deadline. -/
theorem c7_update_deadline_nulled (auth : Auth) (kv : KV) (hdr : Option String)
    (tok uid noteId : String) (req : NoteReq) (n : StoredNote)
    (hb : bearerToken hdr = some tok) (ha : auth tok = some uid)
    (hex : kvGet kv (noteKey uid noteId) = some (.vnote n))
    (hd : req.deadline = none ∨ req.deadline = some "") :
    (updateNoteHandler auth kv hdr noteId req).result = .okNote (mergeNote n req) ∧
    (mergeNote n req).deadline = none ∧
    kvGet (updateNoteHandler auth kv hdr noteId req).kv (noteKey uid noteId) =
      some (.vnote (mergeNote n req)) := by
  refine ⟨?_, ?_, ?_⟩
  · simp [updateNoteHandler, hb, ha, hex]
  · rcases hd with h | h <;> simp [mergeNote, jsOrNull, h]
  · simp [updateNoteHandler, hb, ha, hex, aux_kvGet_set]

/-- C7 witness: the fixture note's stored deadline "2024-12-31" becomes
null after an update that omits the deadline. -/
theorem c7_update_deadline_nulled_witness :
    (mergeNote noteW reqNoTitleW).deadline = none ∧
    noteW.deadline = some "2024-12-31" ∧
    (updateNoteHandler authW kvW (some "Bearer t1") "n1" reqNoTitleW).result =
      .okNote (mergeNote noteW reqNoTitleW) :=
  ⟨(c7_update_deadline_nulled authW kvW (some "Bearer t1") "t1" "u1" "n1" reqNoTitleW
      noteW rfl rfl (by decide) (Or.inl rfl)).2.1,
   rfl,
   (c7_update_deadline_nulled authW kvW (some "Bearer t1") "t1" "u1" "n1" reqNoTitleW
      noteW rfl rfl (by decide) (Or.inl rfl)).1⟩

/-- C10: updating an existing note overwrites its stored title and text
with the request's values unconditionally, so a request omitting the title
stores the note with no title; that record still exists in the store but
fails the list filter and is omitted from every subsequent GET /notes
result. -/
theorem c10_update_title_overwrite (auth : Auth) (kv : KV) (hdr : Option String)
    (tok uid noteId : String) (req : NoteReq) (n : StoredNote)
    (hb : bearerToken hdr = some tok) (ha : auth tok = some uid)
    (hex : kvGet kv (noteKey uid noteId) = some (.vnote n))
    (ht : req.title = none) :
    (updateNoteHandler auth kv hdr noteId req).result = .okNote (mergeNote n req) ∧
    (mergeNote n req).title = none ∧
    (mergeNote n req).text = req.text ∧
    kvGet (updateNoteHandler auth kv hdr noteId req).kv (noteKey uid noteId) =
      some (.vnote (mergeNote n req)) ∧
    ∀ kv2 : KV, Value.vnote (mergeNote n req) ∉
      notesOf (getNotesHandler auth kv2 hdr).result := by
  refine ⟨?_, ?_, ?_, ?_, ?_⟩
  · simp [updateNoteHandler, hb, ha, hex]
  · simp [mergeNote, ht]
  · simp [mergeNote]
  · simp [updateNoteHandler, hb, ha, hex, aux_kvGet_set]
  · intro kv2 hmem
    simp [getNotesHandler, hb, ha, notesOf, isValidNote, mergeNote, ht,
      truthyStr] at hmem

/-- C10 witness: an update of the fixture note that omits the title leaves
a titleless record in the store which GET /notes then omits. -/
theorem c10_update_title_overwrite_witness :
    (mergeNote noteW reqNoTitleW).title = none ∧
    kvGet (updateNoteHandler authW kvW (some "Bearer t1") "n1" reqNoTitleW).kv
        (noteKey "u1" "n1") = some (.vnote (mergeNote noteW reqNoTitleW)) ∧
    Value.vnote (mergeNote noteW reqNoTitleW) ∉
      notesOf (getNotesHandler authW
        (updateNoteHandler authW kvW (some "Bearer t1") "n1" reqNoTitleW).kv
        (some "Bearer t1")).result :=
  ⟨(c10_update_title_overwrite authW kvW (some "Bearer t1") "t1" "u1" "n1" reqNoTitleW
      noteW rfl rfl (by decide) rfl).2.1,
   (c10_update_title_overwrite authW kvW (some "Bearer t1") "t1" "u1" "n1" reqNoTitleW
      noteW rfl rfl (by decide) rfl).2.2.2.1,
   (c10_update_title_overwrite authW kvW (some "Bearer t1") "t1" "u1" "n1" reqNoTitleW
      noteW rfl rfl (by decide) rfl).2.2.2.2
     (updateNoteHandler authW kvW (some "Bearer t1") "n1" reqNoTitleW).kv⟩

/-- C4 counterexample: a request whose title and deadline are both present
(title is the empty string) is answered ValidationError 400, not a created
note, refuting the claim that every request with both fields present
allocates and returns a note. -/
theorem c4_create_counterexample :
    reqEmptyTitleW.title = some "" ∧
    reqEmptyTitleW.deadline = some "2025-01-01T23:59:59.999Z" ∧
    (createNoteHandler authW "f1" "now1" [] (some "Bearer t1") reqEmptyTitleW).result =
      .validationErr "Title is required" ∧
    (createNoteHandler authW "f1" "now1" [] (some "Bearer t1") reqEmptyTitleW).result.statusCode
      ≠ 200 := by
  refine ⟨rfl, rfl, by decide, by decide⟩

/-- C4 (amended): create fails with ValidationError (400) whenever title or
deadline is absent, null or empty (falsy); when both are present and
non-empty it allocates the server-generated id, stamps createdAt, persists
the note under the user's namespace, and returns the stored note. -/
theorem c4_create_validation_amended (auth : Auth) (freshId now : String)
    (kv : KV) (hdr : Option String) (tok uid : String) (req : NoteReq)
    (hb : bearerToken hdr = some tok) (ha : auth tok = some uid) :
    (truthyStr req.title = false →
      (createNoteHandler auth freshId now kv hdr req).result =
        .validationErr "Title is required" ∧
      (createNoteHandler auth freshId now kv hdr req).result.statusCode = 400 ∧
      (createNoteHandler auth freshId now kv hdr req).kv = kv) ∧
    (truthyStr req.title = true → truthyStr req.deadline = false →
      (createNoteHandler auth freshId now kv hdr req).result =
        .validationErr "Deadline is required" ∧
      (createNoteHandler auth freshId now kv hdr req).result.statusCode = 400 ∧
      (createNoteHandler auth freshId now kv hdr req).kv = kv) ∧
    (truthyStr req.title = true → truthyStr req.deadline = true →
      (createNoteHandler auth freshId now kv hdr req).result =
        .okNote (mkStoredNote uid freshId now req) ∧
      (createNoteHandler auth freshId now kv hdr req).result.statusCode = 200 ∧
      (mkStoredNote uid freshId now req).id = some freshId ∧
      (mkStoredNote uid freshId now req).userId = some uid ∧
      (mkStoredNote uid freshId now req).createdAt = some now ∧
      (createNoteHandler auth freshId now kv hdr req).kv =
        kvSet kv (noteKey uid freshId) (.vnote (mkStoredNote uid freshId now req)) ∧
      kvGet (createNoteHandler auth freshId now kv hdr req).kv (noteKey uid freshId) =
        some (.vnote (mkStoredNote uid freshId now req))) := by
  refine ⟨?_, ?_, ?_⟩
  · intro ht
    simp [createNoteHandler, hb, ha, ht, HandlerResult.statusCode]
  · intro ht hd
    simp [createNoteHandler, hb, ha, ht, hd, HandlerResult.statusCode]
  · intro ht hd
    simp [createNoteHandler, hb, ha, ht, hd, HandlerResult.statusCode,
      mkStoredNote, aux_kvGet_set]

/-- C4 witness: a request with non-empty title and deadline creates and
persists the expected note; one without a deadline is rejected 400. -/
theorem c4_create_validation_amended_witness :
    (createNoteHandler authW "f1" "now1" [] (some "Bearer t1") reqW).result =
      .okNote (mkStoredNote "u1" "f1" "now1" reqW) ∧
    kvGet (createNoteHandler authW "f1" "now1" [] (some "Bearer t1") reqW).kv
      (noteKey "u1" "f1") = some (.vnote (mkStoredNote "u1" "f1" "now1" reqW)) :=
  ⟨((c4_create_validation_amended authW "f1" "now1" [] (some "Bearer t1") "t1" "u1"
      reqW rfl rfl).2.2 rfl rfl).1,
   ((c4_create_validation_amended authW "f1" "now1" [] (some "Bearer t1") "t1" "u1"
      reqW rfl rfl).2.2 rfl rfl).2.2.2.2.2.2⟩

/-- C8 counterexample: an entry under the user's namespace that is an
object having both an id and a title (the id is the empty string) is
dropped from the GET /notes result, refuting the claim that exactly the
object entries having both fields are returned. -/
theorem c8_list_counterexample :
    badNoteW.id = some "" ∧
    badNoteW.title = some "T" ∧
    Value.vnote badNoteW ∈ kvGetByPrefix kvBadW (notesPre "u1") ∧
    (getNotesHandler authW kvBadW (some "Bearer t1")).result = .okNotes [] := by
  refine ⟨rfl, rfl, by decide, by decide⟩

/-- C8 (amended): GET /notes returns, with status 200 and never an error,
exactly the entries under the authenticated user's namespace that are
objects whose id and title are both present and non-empty (truthy); null
entries and entries missing either field, or carrying an empty one, are
silently dropped. -/
theorem c8_list_filter_amended (auth : Auth) (kv : KV) (hdr : Option String)
    (tok uid : String)
    (hb : bearerToken hdr = some tok) (ha : auth tok = some uid) :
    (getNotesHandler auth kv hdr).result =
      .okNotes ((kvGetByPrefix kv (notesPre uid)).filter isValidNote) ∧
    (getNotesHandler auth kv hdr).result.statusCode = 200 ∧
    (getNotesHandler auth kv hdr).kv = kv ∧
    (∀ v, v ∈ notesOf (getNotesHandler auth kv hdr).result ↔
      v ∈ kvGetByPrefix kv (notesPre uid) ∧
        (∃ n, v = Value.vnote n ∧ truthyStr n.id = true ∧ truthyStr n.title = true)) ∧
    (∀ n, (truthyStr n.id = false ∨ truthyStr n.title = false) →
      Value.vnote n ∉ notesOf (getNotesHandler auth kv hdr).result) := by
  refine ⟨?_, ?_, ?_, ?_, ?_⟩
  · simp [getNotesHandler, hb, ha]
  · simp [getNotesHandler, hb, ha, HandlerResult.statusCode]
  · simp [getNotesHandler, hb, ha]
  · intro v
    simp only [getNotesHandler, hb, ha, notesOf, List.mem_filter]
    constructor
    · rintro ⟨hv, hval⟩
      refine ⟨hv, ?_⟩
      cases v with
      | vnull => simp [isValidNote] at hval
      | vnote n =>
        simp [isValidNote] at hval
        exact ⟨n, rfl, hval.1, hval.2⟩
    · rintro ⟨hv, n, rfl, hid, hti⟩
      exact ⟨hv, by simp [isValidNote, hid, hti]⟩
  · rintro n (h | h) hmem
    · simp [getNotesHandler, hb, ha, notesOf, List.mem_filter, isValidNote, h] at hmem
    · simp [getNotesHandler, hb, ha, notesOf, List.mem_filter, isValidNote, h] at hmem

/-- C8 witness: on the fixture store holding only the empty-id entry, the
returned list is the filter of the namespace scan, here empty. -/
theorem c8_list_filter_amended_witness :
    (getNotesHandler authW kvBadW (some "Bearer t1")).result =
      .okNotes ((kvGetByPrefix kvBadW (notesPre "u1")).filter isValidNote) ∧
    (getNotesHandler authW kvBadW (some "Bearer t1")).result.statusCode = 200 :=
  ⟨(c8_list_filter_amended authW kvBadW (some "Bearer t1") "t1" "u1" rfl rfl).1,
   (c8_list_filter_amended authW kvBadW (some "Bearer t1") "t1" "u1" rfl rfl).2.1⟩

/-- Unfolding of the prefix-scan on a cons cell. -/
theorem aux_getByPrefix_cons (a : String × Value) (rest : KV) (p : String) :
    kvGetByPrefix (a :: rest) p =
      if strStarts p.data a.1.data then a.2 :: kvGetByPrefix rest p
      else kvGetByPrefix rest p := by
  simp only [kvGetByPrefix, List.filter_cons]
  split <;> simp

/-- After a `set` of a value satisfying `q` at a key inside the scanned
namespace, if no previously scanned value satisfies `q`, the scan filtered
by `q` is exactly the new value. -/
theorem aux_filter_set (q : Value → Bool) (nv : Value) (p key : String)
    (hpk : strStarts p.data key.data = true) (hnv : q nv = true) :
    ∀ kv : KV, (∀ v ∈ kvGetByPrefix kv p, q v = false) →
      (kvGetByPrefix (kvSet kv key nv) p).filter q = [nv] := by
  intro kv
  induction kv with
  | nil =>
    intro _
    simp [kvSet, kvGetByPrefix, hpk, hnv]
  | cons a rest ih =>
    intro hfresh
    have hrest : ∀ v ∈ kvGetByPrefix rest p, q v = false := by
      intro v hv
      apply hfresh
      rw [aux_getByPrefix_cons]
      split
      · exact List.mem_cons_of_mem _ hv
      · exact hv
    by_cases hak : (a.1 == key) = true
    · have ha1 : a.1 = key := eq_of_beq hak
      have htail : (kvGetByPrefix rest p).filter q = [] :=
        List.filter_eq_nil_iff.mpr (fun v hv => by simp [hrest v hv])
      simp only [kvSet, hak, if_true]
      rw [aux_getByPrefix_cons]
      simp [hpk, hnv, htail]
    · have hf : (a.1 == key) = false := Bool.eq_false_iff.mpr hak
      simp only [kvSet, hf, Bool.false_eq_true, if_false]
      rw [aux_getByPrefix_cons]
      by_cases hap : strStarts p.data a.1.data = true
      · have hhead : q a.2 = false := by
          apply hfresh
          rw [aux_getByPrefix_cons]
          simp [hap]
        simp [hap, hhead, ih hrest]
      · have hapf : strStarts p.data a.1.data = false := Bool.eq_false_iff.mpr hap
        simp [hapf, ih hrest]

/-- The note POST /notes builds from a truthy title and a non-empty fresh
id passes the GET /notes validity filter. -/
theorem aux_isValid_mk (uid freshId now : String) (req : NoteReq)
    (ht : truthyStr req.title = true) (hfid : freshId ≠ "") :
    isValidNote (.vnote (mkStoredNote uid freshId now req)) = true := by
  cases hreq : req.title with
  | none => rw [hreq] at ht; simp [truthyStr] at ht
  | some s =>
    rw [hreq] at ht
    simp [truthyStr] at ht
    simp [isValidNote, mkStoredNote, truthyStr, jsOrStr, hreq, ht, hfid]

/-- The note POST /notes builds carries the server-generated id. -/
theorem aux_hasId_mk (uid freshId now : String) (req : NoteReq) :
    hasId (.vnote (mkStoredNote uid freshId now req)) freshId = true := by
  simp [hasId, mkStoredNote]

/-- With a truthy request title, the created note stores exactly the
request's title. -/
theorem aux_title_mk (uid freshId now : String) (req : NoteReq)
    (ht : truthyStr req.title = true) :
    (mkStoredNote uid freshId now req).title = req.title := by
  cases hreq : req.title with
  | none => rw [hreq] at ht; simp [truthyStr] at ht
  | some s =>
    rw [hreq] at ht
    simp [truthyStr] at ht
    simp [mkStoredNote, jsOrStr, hreq, ht]

/-- C5: creating a note from a valid (title, deadline) and then listing the
user's notes yields exactly one note carrying the server-generated fresh
id — provided that id differs from the id of every previously stored value
under the namespace — and that note holds the requested title and deadline.
The id is the server's `freshId` argument, independent of the request. -/
theorem c5_create_then_list (auth : Auth) (kv : KV) (hdr : Option String)
    (tok uid freshId now : String) (req : NoteReq)
    (hb : bearerToken hdr = some tok) (ha : auth tok = some uid)
    (ht : truthyStr req.title = true) (hd : truthyStr req.deadline = true)
    (hfid : freshId ≠ "")
    (hfresh : ∀ v ∈ kvGetByPrefix kv (notesPre uid), hasId v freshId = false) :
    (createNoteHandler auth freshId now kv hdr req).result =
      .okNote (mkStoredNote uid freshId now req) ∧
    (mkStoredNote uid freshId now req).id = some freshId ∧
    (mkStoredNote uid freshId now req).title = req.title ∧
    (mkStoredNote uid freshId now req).deadline = req.deadline ∧
    (getNotesHandler auth (createNoteHandler auth freshId now kv hdr req).kv
      hdr).result.statusCode = 200 ∧
    (notesOf (getNotesHandler auth (createNoteHandler auth freshId now kv hdr req).kv
          hdr).result).filter (fun v => hasId v freshId) =
      [Value.vnote (mkStoredNote uid freshId now req)] := by
  have hkv : (createNoteHandler auth freshId now kv hdr req).kv =
      kvSet kv (noteKey uid freshId) (.vnote (mkStoredNote uid freshId now req)) := by
    simp [createNoteHandler, hb, ha, ht, hd]
  refine ⟨?_, rfl, aux_title_mk uid freshId now req ht, rfl, ?_, ?_⟩
  · simp [createNoteHandler, hb, ha, ht, hd]
  · simp [getNotesHandler, hb, ha, HandlerResult.statusCode]
  · rw [hkv]
    simp only [getNotesHandler, hb, ha, notesOf]
    rw [List.filter_filter]
    apply aux_filter_set (fun v => hasId v freshId && isValidNote v)
      (.vnote (mkStoredNote uid freshId now req)) (notesPre uid)
      (noteKey uid freshId) (aux_starts_key uid freshId)
    · simp [aux_hasId_mk uid freshId now req, aux_isValid_mk uid freshId now req ht hfid]
    · intro v hv
      simp [hfresh v hv]

/-- C5 witness: creating from the fixture request on the empty store and
listing yields exactly the one created note under its fresh id. -/
theorem c5_create_then_list_witness :
    (notesOf (getNotesHandler authW
        (createNoteHandler authW "f1" "now1" [] (some "Bearer t1") reqW).kv
        (some "Bearer t1")).result).filter (fun v => hasId v "f1") =
      [Value.vnote (mkStoredNote "u1" "f1" "now1" reqW)] :=
  (c5_create_then_list authW [] (some "Bearer t1") "t1" "u1" "f1" "now1" reqW
    rfl rfl (by decide) (by decide) (by decide)
    (by intro v hv; simp [kvGetByPrefix] at hv)).2.2.2.2.2

/-- C1: every key-value operation a notes handler performs for an
authenticated user lies inside that user's namespace `user:<userId>:note:`,
derived from the identity the bearer token resolves to (the handlers take
no client-supplied user id); consequently, when two distinct users (ids
colon-free, as the auth provider's UUIDs are) each create a note starting
from an empty store, each user's GET /notes returns exactly their own
note. -/
theorem c1_namespace_isolation (auth : Auth) (kv : KV) (hdr : Option String)
    (tok uid noteId freshId now : String) (req : NoteReq)
    (hb : bearerToken hdr = some tok) (ha : auth tok = some uid)
    (hdr1 hdr2 : Option String) (tok1 tok2 u1 u2 f1 f2 now1 now2 : String)
    (req1 req2 : NoteReq)
    (hb1 : bearerToken hdr1 = some tok1) (ha1 : auth tok1 = some u1)
    (hb2 : bearerToken hdr2 = some tok2) (ha2 : auth tok2 = some u2)
    (hne : u1 ≠ u2) (hcu1 : ':' ∉ u1.data) (hcu2 : ':' ∉ u2.data)
    (ht1 : truthyStr req1.title = true) (hd1 : truthyStr req1.deadline = true)
    (ht2 : truthyStr req2.title = true) (hd2 : truthyStr req2.deadline = true)
    (hf1 : f1 ≠ "") (hf2 : f2 ≠ "") :
    ((getNotesHandler auth kv hdr).trace.all (scopedToUser uid) = true ∧
     (createNoteHandler auth freshId now kv hdr req).trace.all (scopedToUser uid) = true ∧
     (updateNoteHandler auth kv hdr noteId req).trace.all (scopedToUser uid) = true ∧
     (deleteNoteHandler auth kv hdr noteId).trace.all (scopedToUser uid) = true) ∧
    ((getNotesHandler auth
        (createNoteHandler auth f2 now2
          (createNoteHandler auth f1 now1 [] hdr1 req1).kv hdr2 req2).kv
        hdr1).result = .okNotes [.vnote (mkStoredNote u1 f1 now1 req1)] ∧
     (getNotesHandler auth
        (createNoteHandler auth f2 now2
          (createNoteHandler auth f1 now1 [] hdr1 req1).kv hdr2 req2).kv
        hdr2).result = .okNotes [.vnote (mkStoredNote u2 f2 now2 req2)]) := by
  constructor
  · refine ⟨?_, ?_, ?_, ?_⟩
    · simp [getNotesHandler, hb, ha, scopedToUser, KVOp.key, aux_strStarts_rfl]
    · cases hT : truthyStr req.title <;> cases hD : truthyStr req.deadline <;>
        simp [createNoteHandler, hb, ha, hT, hD, scopedToUser, KVOp.key,
          aux_starts_key]
    · cases hk : kvGet kv (noteKey uid noteId) with
      | none =>
        simp [updateNoteHandler, hb, ha, hk, scopedToUser, KVOp.key, aux_starts_key]
      | some v =>
        cases v <;>
          simp [updateNoteHandler, hb, ha, hk, scopedToUser, KVOp.key, aux_starts_key]
    · cases hk : kvGet kv (noteKey uid noteId) with
      | none =>
        simp [deleteNoteHandler, hb, ha, hk, scopedToUser, KVOp.key, aux_starts_key]
      | some v =>
        cases v <;>
          simp [deleteNoteHandler, hb, ha, hk, scopedToUser, KVOp.key, aux_starts_key]
  · have hkv1 : (createNoteHandler auth f1 now1 [] hdr1 req1).kv =
        [(noteKey u1 f1, .vnote (mkStoredNote u1 f1 now1 req1))] := by
      simp [createNoteHandler, hb1, ha1, ht1, hd1, kvSet]
    have hkne : (noteKey u1 f1 == noteKey u2 f2) = false :=
      beq_eq_false_iff_ne.mpr (aux_noteKey_ne u1 u2 f1 f2 hcu1 hcu2 hne)
    have hkv2 : (createNoteHandler auth f2 now2
        (createNoteHandler auth f1 now1 [] hdr1 req1).kv hdr2 req2).kv =
        [(noteKey u1 f1, .vnote (mkStoredNote u1 f1 now1 req1)),
         (noteKey u2 f2, .vnote (mkStoredNote u2 f2 now2 req2))] := by
      rw [hkv1]
      simp [createNoteHandler, hb2, ha2, ht2, hd2, kvSet, hkne]
    have hscan1 : kvGetByPrefix
        [(noteKey u1 f1, .vnote (mkStoredNote u1 f1 now1 req1)),
         (noteKey u2 f2, .vnote (mkStoredNote u2 f2 now2 req2))] (notesPre u1) =
        [.vnote (mkStoredNote u1 f1 now1 req1)] := by
      rw [aux_getByPrefix_cons, aux_getByPrefix_cons]
      simp [aux_starts_key, aux_starts_cross u1 u2 f2 hcu1 hcu2 hne, kvGetByPrefix]
    have hscan2 : kvGetByPrefix
        [(noteKey u1 f1, .vnote (mkStoredNote u1 f1 now1 req1)),
         (noteKey u2 f2, .vnote (mkStoredNote u2 f2 now2 req2))] (notesPre u2) =
        [.vnote (mkStoredNote u2 f2 now2 req2)] := by
      rw [aux_getByPrefix_cons, aux_getByPrefix_cons]
      simp [aux_starts_key, aux_starts_cross u2 u1 f1 hcu2 hcu1 (Ne.symm hne),
        kvGetByPrefix]
    constructor
    · rw [hkv2]
      simp [getNotesHandler, hb1, ha1, hscan1,
        aux_isValid_mk u1 f1 now1 req1 ht1 hf1]
    · rw [hkv2]
      simp [getNotesHandler, hb2, ha2, hscan2,
        aux_isValid_mk u2 f2 now2 req2 ht2 hf2]

/-- C1 witness: users u1 and u2 each create a note from the empty store and
each list then returns exactly that user's note. -/
theorem c1_namespace_isolation_witness :
    (getNotesHandler authW
        (createNoteHandler authW "f2" "now2"
          (createNoteHandler authW "f1" "now1" [] (some "Bearer t1") reqW).kv
          (some "Bearer t2") reqW2).kv
        (some "Bearer t1")).result =
      .okNotes [.vnote (mkStoredNote "u1" "f1" "now1" reqW)] ∧
    (getNotesHandler authW
        (createNoteHandler authW "f2" "now2"
          (createNoteHandler authW "f1" "now1" [] (some "Bearer t1") reqW).kv
          (some "Bearer t2") reqW2).kv
        (some "Bearer t2")).result =
      .okNotes [.vnote (mkStoredNote "u2" "f2" "now2" reqW2)] :=
  ⟨(c1_namespace_isolation authW kvW (some "Bearer t1") "t1" "u1" "n1" "f9" "now9" reqW
      rfl rfl (some "Bearer t1") (some "Bearer t2") "t1" "t2" "u1" "u2" "f1" "f2"
      "now1" "now2" reqW reqW2 rfl rfl rfl rfl (by decide) (by decide) (by decide)
      (by decide) (by decide) (by decide) (by decide) (by decide) (by decide)).2.1,
   (c1_namespace_isolation authW kvW (some "Bearer t1") "t1" "u1" "n1" "f9" "now9" reqW
      rfl rfl (some "Bearer t1") (some "Bearer t2") "t1" "t2" "u1" "u2" "f1" "f2"
      "now1" "now2" reqW reqW2 rfl rfl rfl rfl (by decide) (by decide) (by decide)
      (by decide) (by decide) (by decide) (by decide) (by decide) (by decide)).2.2⟩
